import Mathlib

/-!
Verification of the expense-category model in
`choices-no-migrations/example/expenses/models.py` and its test
`tests.py`.

The repository declares a persisted `Expense` record with a nested
`Tag` enumeration (`TextChoices`): five symbolic names, each bound to a
two-character stored code.  The category table and the record fields
are embedded here directly from the source; the abstract
validation/lookup contract (`validate`, `label_for`, `code_for`,
`all_categories`, duplicate-code detection), which the framework
supplies rather than the repository's own files, is modelled from the
specification and settled against the embedded table.
-/

namespace Expenses

/-- A category entry: a symbolic name paired with its short stored code
(one member of the `Tag` enumeration in `models.py`). -/
structure Category where
  name : String
  code : String
deriving DecidableEq, Repr

/-- Errors of the category contract, taken from the specification's
error taxonomy (§7). -/
inductive CategoryError where
  | InvalidCategoryError
  | UnknownCodeError
  | UnknownNameError
  | DuplicateCodeConfigurationError
deriving DecidableEq, Repr

deriving instance DecidableEq for Except

namespace Expense

/-- Embeds `Expense.Tag.CLOTHING = 'CL'` from `models.py`. -/
def Tag.CLOTHING : Category := ⟨"CLOTHING", "CL"⟩

/-- Embeds `Expense.Tag.FOOD = 'FD'` from `models.py`. -/
def Tag.FOOD : Category := ⟨"FOOD", "FD"⟩

/-- Embeds `Expense.Tag.HOUSING = 'HS'` from `models.py`. -/
def Tag.HOUSING : Category := ⟨"HOUSING", "HS"⟩

/-- Embeds `Expense.Tag.TRANSPORTATION = 'TR'` from `models.py`. -/
def Tag.TRANSPORTATION : Category := ⟨"TRANSPORTATION", "TR"⟩

/-- Embeds `Expense.Tag.UTILITIES = 'UT'` from `models.py`. -/
def Tag.UTILITIES : Category := ⟨"UTILITIES", "UT"⟩

/-- The `Tag` enumeration of `models.py`, in declaration order. -/
def Tag.members : List Category :=
  [Tag.CLOTHING, Tag.FOOD, Tag.HOUSING, Tag.TRANSPORTATION, Tag.UTILITIES]

/-- Embeds `Expense.Tag.choices`, the `(value, label)` pairs the
`TextChoices` machinery derives from the members in declaration order
(labels are the title-cased member names). -/
def Tag.choices : List (String × String) :=
  [("CL", "Clothing"), ("FD", "Food"), ("HS", "Housing"),
   ("TR", "Transportation"), ("UT", "Utilities")]

/-- Embeds `max_length=2` of the `tag = models.CharField(...)` column
in `models.py`: a literal width, not derived from the member count. -/
def tag_max_length : Nat := 2

/-- Embeds `decimal_places=2` of the `amount` column in `models.py`. -/
def amount_decimal_places : Nat := 2

/-- Embeds `max_digits=20` of the `amount` column in `models.py`. -/
def amount_max_digits : Nat := 20

end Expense

/-- Modelled from the spec: `validate(candidate)` (§4.1) succeeds with
the matching category when `candidate` is a registered stored code and
fails with `InvalidCategoryError` otherwise.  The framework performs
this check against the table declared in `models.py`; it is not itself
a file under the repository. -/
def validate (table : List Category) (candidate : String) :
    Except CategoryError Category :=
  match table.find? (fun c => c.code == candidate) with
  | some c => .ok c
  | none => .error .InvalidCategoryError

/-- Modelled from the spec: `label_for(code)` (§4.1) returns the
symbolic name registered for a stored code, or `UnknownCodeError`. -/
def label_for (table : List Category) (code : String) :
    Except CategoryError String :=
  match table.find? (fun c => c.code == code) with
  | some c => .ok c.name
  | none => .error .UnknownCodeError

/-- Modelled from the spec: `code_for(name)` (§4.1), the inverse
lookup, or `UnknownNameError`. -/
def code_for (table : List Category) (name : String) :
    Except CategoryError String :=
  match table.find? (fun c => c.name == name) with
  | some c => .ok c.code
  | none => .error .UnknownNameError

/-- Modelled from the spec: `all_categories()` (§4.1) enumerates the
`(name, code)` pairs of the table in declaration order. -/
def all_categories (table : List Category) : List (String × String) :=
  table.map fun c => (c.name, c.code)

/-- Modelled from the spec: table construction (§7) detects two
distinct symbolic names sharing a stored code and fails with
`DuplicateCodeConfigurationError` before the table can be used. -/
def buildTable (entries : List Category) :
    Except CategoryError (List Category) :=
  if entries.any (fun a => entries.any fun b => a.code == b.code && a.name != b.name)
  then .error .DuplicateCodeConfigurationError
  else .ok entries

/-- Modelled from the spec: a write attempt (§7) validates the
candidate stored code first and only on success hands the code to the
persistence collaborator (here: appends it to the store). -/
def write (table : List Category) (candidate : String)
    (store : List String) : Except CategoryError (List String) :=
  match validate table candidate with
  | .ok c => .ok (store ++ [c.code])
  | .error e => .error e

/-- The round trip of §8: `code_for(label_for(code_for(name)))`,
with each step's error propagated. -/
def roundTrip (table : List Category) (name : String) :
    Except CategoryError String :=
  match code_for table name with
  | .error e => .error e
  | .ok k =>
    match label_for table k with
    | .error e => .error e
    | .ok n => code_for table n

/-- Modelled from the spec: the concrete scenario of §8, the table
before CLOTHING was registered. -/
def tableBeforeClothing : List Category :=
  [⟨"FOOD", "FD"⟩, ⟨"HOUSING", "HS"⟩, ⟨"TRANSPORTATION", "TR"⟩,
   ⟨"UTILITIES", "UT"⟩]

/-- A digit sequence as a natural number; `none` when a character is
not a digit or the sequence is empty. -/
def parseDigits (cs : List Char) : Option Nat :=
  if cs.isEmpty then none
  else cs.foldlM
    (fun acc c => if c.isDigit then some (acc * 10 + (c.toNat - 48)) else none) 0

/-- Split a character sequence at every dot. -/
def splitDot : List Char → List (List Char)
  | [] => [[]]
  | c :: rest =>
    let r := splitDot rest
    if c = '.' then [] :: r
    else
      match r with
      | [] => [[c]]
      | h :: t => (c :: h) :: t

/-- The exact fixed-point reading of a decimal amount string at the
column's `decimal_places=2`: `"10.23"` becomes the scaled integer
`1023`, with no rounding (the fraction carries exactly two digits, as
the stored column does). -/
def parseDecimal2 (s : String) : Option Nat :=
  match splitDot s.data with
  | [i] => (parseDigits i).map (· * 100)
  | [i, f] =>
    if f.length = 2 then
      match parseDigits i, parseDigits f with
      | some a, some b => some (a * 100 + b)
      | _, _ => none
    else none
  | _ => none

/-- Embeds the `Expense` model of `models.py`: `what = TextField()`,
`when = DateTimeField(default=now)`, `amount = DecimalField(
decimal_places=2, max_digits=20)` held as the integer scaled by `10^2`,
and `tag = CharField(max_length=2, choices=Tag.choices)` holding a
stored code. -/
structure ExpenseRow where
  what : String
  when : Nat
  amount : Nat
  tag : String
deriving DecidableEq, Repr

/-- Embeds `Expense.objects.create(...)` as the test uses it: the
amount string is read exactly at two decimal places, the timestamp
defaults to the creation time `now` when the caller supplies none, and
the tag member is persisted as its stored code. -/
def create (now : Nat) (what : String) (whenArg : Option Nat)
    (amount : String) (tag : Category) : Option ExpenseRow :=
  (parseDecimal2 amount).map fun m =>
    { what := what, when := whenArg.getD now, amount := m, tag := tag.code }

/-- The value a `TextChoices` member carries: `FOOD = 'FD'` makes the
member a string subclass whose content is the stored code, so the
member compares equal to `"FD"`. -/
def memberValue (c : Category) : String := c.code

/-- C1: any candidate stored code outside the registered table makes
`validate` fail with `InvalidCategoryError`, and a write attempt
carrying it is rejected with the same error before anything reaches
the persistence collaborator's store. -/
theorem validate_rejects_out_of_set (table : List Category) (code : String)
    (store : List String) (h : ∀ c ∈ table, c.code ≠ code) :
    validate table code = .error .InvalidCategoryError ∧
    write table code store = .error .InvalidCategoryError := by
  have hf : table.find? (fun c => c.code == code) = none := by
    rw [List.find?_eq_none]
    intro c hc
    simpa using h c hc
  constructor
  · simp [validate, hf]
  · simp [write, validate, hf]

/-- Witness for C1 at the table of `models.py` and the unregistered
code `"ZZ"`. -/
theorem validate_rejects_out_of_set_witness :
    validate Expense.Tag.members "ZZ" = .error .InvalidCategoryError ∧
    write Expense.Tag.members "ZZ" [] = .error .InvalidCategoryError :=
  validate_rejects_out_of_set Expense.Tag.members "ZZ" [] (by decide)

/-- C2: constructing a table containing two entries that share a
stored code but carry different symbolic names fails with
`DuplicateCodeConfigurationError` at construction time — `buildTable`
itself returns the error, so no table is ever handed out. -/
theorem buildTable_duplicate_code_fails (entries : List Category)
    (a b : Category) (ha : a ∈ entries) (hb : b ∈ entries)
    (hcode : a.code = b.code) (hname : a.name ≠ b.name) :
    buildTable entries = .error .DuplicateCodeConfigurationError := by
  have hany : (entries.any fun x =>
      entries.any fun y => x.code == y.code && x.name != y.name) = true := by
    rw [List.any_eq_true]
    refine ⟨a, ha, ?_⟩
    rw [List.any_eq_true]
    exact ⟨b, hb, by simp [hcode, hname]⟩
  simp [buildTable, hany]

/-- Witness for C2 at a two-entry table reusing the code `"XX"`. -/
theorem buildTable_duplicate_code_fails_witness :
    buildTable [⟨"ALPHA", "XX"⟩, ⟨"BETA", "XX"⟩] =
      .error .DuplicateCodeConfigurationError :=
  buildTable_duplicate_code_fails _ ⟨"ALPHA", "XX"⟩ ⟨"BETA", "XX"⟩
    (by decide) (by decide) (by decide) (by decide)

/-- C3: against the table {FOOD→"FD", HOUSING→"HS", TRANSPORTATION→"TR",
UTILITIES→"UT"}, `validate "FD"` succeeds and returns the FOOD
category, while `validate "CL"` fails with `InvalidCategoryError`
because CLOTHING is not registered there. -/
theorem validate_scenario_before_clothing :
    validate tableBeforeClothing "FD" = .ok ⟨"FOOD", "FD"⟩ ∧
    validate tableBeforeClothing "CL" = .error .InvalidCategoryError := by
  decide

/-- C4: for every category registered in the table of `models.py`, the
round trip name→code→name is the identity: `code_for` yields the
category's code and `code_for (label_for (code_for name))` yields that
same code. -/
theorem roundTrip_identity_on_members :
    ∀ c ∈ Expense.Tag.members,
      code_for Expense.Tag.members c.name = .ok c.code ∧
      roundTrip Expense.Tag.members c.name = .ok c.code := by
  decide

/-- Witness for C4 at the FOOD member. -/
theorem roundTrip_identity_on_members_witness :
    code_for Expense.Tag.members "FOOD" = .ok "FD" ∧
    roundTrip Expense.Tag.members "FOOD" = .ok "FD" :=
  roundTrip_identity_on_members Expense.Tag.FOOD (by decide)

/-- C5: `all_categories` lists exactly the registered (name, code)
pairs in declaration order, matching the order of the generated
`Tag.choices`; as a pure function of the immutable table, repeated
calls within a process necessarily return this same sequence. -/
theorem all_categories_declaration_order :
    all_categories Expense.Tag.members =
      [("CLOTHING", "CL"), ("FOOD", "FD"), ("HOUSING", "HS"),
       ("TRANSPORTATION", "TR"), ("UTILITIES", "UT")] ∧
    (all_categories Expense.Tag.members).map Prod.snd =
      Expense.Tag.choices.map Prod.fst := by
  decide

/-- C6: creating a record with amount `"10.23"` and category FOOD
stores the amount as the exact fixed-point value `1023/10^2 = 10.23`
(no rounding), stores the category as `"FD"`, and looking the stored
code up again yields the FOOD category. -/
theorem create_persists_exact_amount_and_code :
    parseDecimal2 "10.23" = some 1023 ∧
    ((1023 : ℚ) / 10 ^ 2 = 10.23) ∧
    create 0 "lunch" none "10.23" Expense.Tag.FOOD =
      some ⟨"lunch", 0, 1023, "FD"⟩ ∧
    validate Expense.Tag.members "FD" = .ok Expense.Tag.FOOD :=
  ⟨by decide, by norm_num, by decide, by decide⟩

/-- C7: a created record has exactly the four declared attributes: the
free-text description, a timestamp that is the creation time when the
caller omits it and the caller's value otherwise, the amount read
exactly at the column's two decimal places, and the category's stored
code; the column declares 2 decimal places and 20 total digits. -/
theorem expense_record_shape (n ts : Nat) (w s : String) (c : Category) :
    (∀ row, create n w none s c = some row →
      row.what = w ∧ row.when = n ∧ row.tag = c.code ∧
      parseDecimal2 s = some row.amount) ∧
    (∀ row, create n w (some ts) s c = some row → row.when = ts) ∧
    Expense.amount_decimal_places = 2 ∧ Expense.amount_max_digits = 20 := by
  refine ⟨?_, ?_, rfl, rfl⟩
  · intro row hrow
    cases hp : parseDecimal2 s with
    | none => simp [create, hp] at hrow
    | some v =>
      simp [create, hp] at hrow
      cases hrow
      simp [hp]
  · intro row hrow
    cases hp : parseDecimal2 s with
    | none => simp [create, hp] at hrow
    | some v =>
      simp [create, hp] at hrow
      cases hrow
      simp

/-- Witness for C7 at a concrete created record. -/
theorem expense_record_shape_witness :
    (⟨"x", 5, 1023, "FD"⟩ : ExpenseRow).what = "x" ∧
    (⟨"x", 5, 1023, "FD"⟩ : ExpenseRow).when = 5 ∧
    (⟨"x", 5, 1023, "FD"⟩ : ExpenseRow).tag = Expense.Tag.FOOD.code ∧
    parseDecimal2 "10.23" = some (⟨"x", 5, 1023, "FD"⟩ : ExpenseRow).amount :=
  (expense_record_shape 5 7 "x" "10.23" Expense.Tag.FOOD).1
    ⟨"x", 5, 1023, "FD"⟩ (by decide)

/-- C8: the stored-code column width is the literal constant 2 — not a
quantity derived from the member count — and every registered code
fits in it. -/
theorem tag_width_fixed :
    Expense.tag_max_length = 2 ∧
    ∀ c ∈ Expense.Tag.members, c.code.length ≤ Expense.tag_max_length := by
  decide

/-- Witness for C8 at the CLOTHING member. -/
theorem tag_width_fixed_witness :
    Expense.Tag.CLOTHING.code.length ≤ Expense.tag_max_length :=
  tag_width_fixed.2 Expense.Tag.CLOTHING (by decide)

/-- C9: the registered table consists of exactly the five entries
CLOTHING→"CL", FOOD→"FD", HOUSING→"HS", TRANSPORTATION→"TR",
UTILITIES→"UT", and their stored codes are pairwise distinct. -/
theorem tag_table_entries :
    Expense.Tag.members =
      [⟨"CLOTHING", "CL"⟩, ⟨"FOOD", "FD"⟩, ⟨"HOUSING", "HS"⟩,
       ⟨"TRANSPORTATION", "TR"⟩, ⟨"UTILITIES", "UT"⟩] ∧
    Expense.Tag.members.length = 5 ∧
    (Expense.Tag.members.map Category.code).Nodup := by
  decide

/-- C10: a `Tag` member carries its stored code as its value —
`Tag.FOOD` equals `"FD"` — every member's value is a 2-character
code, and the record created by the test with `tag=Tag.FOOD` holds a
tag equal to that member value, which is what the test's equality
assertion relies on. -/
theorem member_equals_stored_code :
    memberValue Expense.Tag.FOOD = "FD" ∧
    (∀ c ∈ Expense.Tag.members, (memberValue c).length = 2) ∧
    (create 0 "" none "10.23" Expense.Tag.FOOD).map ExpenseRow.tag =
      some (memberValue Expense.Tag.FOOD) := by
  decide

/-- Witness for C10 at the UTILITIES member. -/
theorem member_equals_stored_code_witness :
    (memberValue Expense.Tag.UTILITIES).length = 2 :=
  member_equals_stored_code.2.1 Expense.Tag.UTILITIES (by decide)

end Expenses
